import Mathlib

/-!
Verification of the MCP client wrapper (src/client.ts, src/types.ts).

The client is a thin stateful façade over an SDK `Client` object.  We embed it
shallowly: the mutable fields of `MCPClient` become a `ClientState` record, the
SDK calls (`client.connect`, `client.close`, and the request methods) become
explicit outcome/response parameters, and every `throw` site becomes an
`MCPError` value returned through `Except`.  Each typed operation additionally
reports the list of wire requests it performed, so that "performs no request"
is expressible.
-/

namespace MCP

/-- JSON-like values, standing in for the `unknown` payloads of the source
(`Record<string, unknown>` properties and tool arguments). -/
inductive JsonVal where
  | str (s : String)
  | num (n : Int)
  | boolean (b : Bool)
  | arr (xs : List JsonVal)
  | obj (fields : List (String × JsonVal))
  | null
  deriving Repr

/-- Transport kind, from `types.ts` (`TransportType = 'stdio' | 'sse'`). -/
inductive TransportType where
  | stdio
  | sse
  deriving Repr, DecidableEq

/-- Construction config, from `types.ts` (`MCPClientConfig`).  Every field is
optional in the source; `none` models an absent property. -/
structure MCPClientConfig where
  command : Option String := none
  args : Option (List String) := none
  env : Option (List (String × String)) := none
  sseUrl : Option String := none
  timeout : Option Nat := none
  debug : Option Bool := none
  deriving Repr, DecidableEq

/-- Tool input schema, from `types.ts` (`MCPTool.inputSchema`). -/
structure InputSchema where
  type : String
  properties : Option (List (String × JsonVal)) := none
  required : Option (List String) := none
  deriving Repr

/-- Tool descriptor, from `types.ts` (`MCPTool`). -/
structure MCPTool where
  name : String
  description : Option String := none
  inputSchema : InputSchema
  deriving Repr

/-- Resource descriptor, from `types.ts` (`MCPResource`). -/
structure MCPResource where
  uri : String
  name : String
  description : Option String := none
  mimeType : Option String := none
  deriving Repr, DecidableEq

/-- Prompt argument descriptor, from `types.ts` (`MCPPrompt.arguments`). -/
structure PromptArgument where
  name : String
  description : Option String := none
  required : Option Bool := none
  deriving Repr, DecidableEq

/-- Prompt descriptor, from `types.ts` (`MCPPrompt`). -/
structure MCPPrompt where
  name : String
  description : Option String := none
  arguments : Option (List PromptArgument) := none
  deriving Repr, DecidableEq

/-- One content block of a tool-call result, from `types.ts`
(`ToolCallResult.content` elements).  `text`/`data`/`mimeType` are optional
properties; `none` models an absent property. -/
structure ContentBlock where
  type : String
  text : Option String := none
  data : Option String := none
  mimeType : Option String := none
  deriving Repr, DecidableEq

/-- Tool call result, from `types.ts` (`ToolCallResult`). -/
structure ToolCallResult where
  content : List ContentBlock
  isError : Option Bool := none
  deriving Repr, DecidableEq

/-- Server capability flags as returned by `connect()`, from `types.ts`
(`ServerCapabilities`); `connect` always fills all three with `!!` coercions,
so they are plain booleans here. -/
structure ServerCapabilities where
  tools : Bool
  resources : Bool
  prompts : Bool
  deriving Repr, DecidableEq

/-- Errors thrown by `client.ts`; each constructor corresponds to one `throw`
site, carrying the dynamic part of its message where the source interpolates
one.  The names follow the error taxonomy the spec assigns to those sites. -/
inductive MCPError where
  | configurationError
  | alreadyConnectedError
  | connectionError (msg : String)
  | notConnectedError
  | unsupportedContentError
  | disconnectError (msg : String)
  deriving Repr, DecidableEq

/-- Mutable state of an `MCPClient` object: the fields `config`, `connected`
and `transportType` of the class (the `client`/`transport` SDK handles carry
no client-visible state of their own and are modeled by the outcome
parameters of the operations). -/
structure ClientState where
  config : MCPClientConfig
  connected : Bool
  transportType : TransportType
  deriving Repr, DecidableEq

/-- JavaScript truthiness of an optional string: an absent property and the
empty string are falsy.  This is the test `if (config.sseUrl)` /
`else if (config.command)` performs in the constructor. -/
def truthy : Option String → Bool
  | none => false
  | some s => !(s == "")

/-- The defaults merge `this.config = { timeout: 30000, debug: false,
...config }` from the constructor. -/
def withDefaults (c : MCPClientConfig) : MCPClientConfig :=
  { c with timeout := some (c.timeout.getD 30000), debug := some (c.debug.getD false) }

/-- The constructor of `MCPClient` (client.ts lines 25-50): resolves the
transport type (sseUrl first, then command, else throw) and starts
disconnected. -/
def mkClient (config : MCPClientConfig) : Except MCPError ClientState :=
  if truthy config.sseUrl then
    .ok { config := withDefaults config, connected := false, transportType := .sse }
  else if truthy config.command then
    .ok { config := withDefaults config, connected := false, transportType := .stdio }
  else
    .error .configurationError

/-- Outcome of the SDK side of `connect()`: either the handshake succeeds and
`getServerCapabilities` yields the given flags, or transport creation /
`client.connect` fails with a message. -/
inductive ConnectOutcome where
  | success (caps : ServerCapabilities)
  | failure (msg : String)
  deriving Repr, DecidableEq

/-- Outcome of the SDK call `client.close()` inside `disconnect()`. -/
inductive CloseOutcome where
  | success
  | failure (msg : String)
  deriving Repr, DecidableEq

/-- The method `connect()` (client.ts lines 55-89): throws when already
connected; otherwise the SDK connect either succeeds (state becomes
connected, capabilities returned) or fails (state forced to disconnected,
`Failed to connect` error rethrown). -/
def connect (s : ClientState) (o : ConnectOutcome) :
    Except MCPError ServerCapabilities × ClientState :=
  if s.connected then
    (.error .alreadyConnectedError, s)
  else
    match o with
    | .success caps => (.ok caps, { s with connected := true })
    | .failure msg =>
        (.error (.connectionError ("Failed to connect: " ++ msg)),
         { s with connected := false })

/-- The method `disconnect()` (client.ts lines 94-107): returns immediately
when not connected; otherwise closes the SDK client and only then clears the
connected flag; a close failure is rethrown as `Failed to disconnect` with
the flag left untouched. -/
def disconnect (s : ClientState) (o : CloseOutcome) :
    Except MCPError Unit × ClientState :=
  if !s.connected then
    (.ok (), s)
  else
    match o with
    | .success => (.ok (), { s with connected := false })
    | .failure msg =>
        (.error (.disconnectError ("Failed to disconnect: " ++ msg)), s)

/-- Wire requests a typed operation can send through the SDK; recorded so that
theorems can state that an operation performed no request. -/
inductive Request where
  | listToolsReq
  | callToolReq (name : String) (args : List (String × JsonVal))
  | listResourcesReq
  | readResourceReq (uri : String)
  | listPromptsReq
  | getPromptReq (name : String) (args : List (String × String))
  deriving Repr

/-- A tool as delivered by the SDK response to `listTools` (the fields the
source reads: `tool.name`, `tool.description`, `tool.inputSchema`). -/
structure SDKTool where
  name : String
  description : Option String := none
  inputSchema : InputSchema
  deriving Repr

/-- The private guard `ensureConnected()` (client.ts lines 229-233), as the
predicate it tests. -/
def ensureConnectedFails (s : ClientState) : Bool :=
  !s.connected

/-- The method `listTools()` (client.ts lines 112-121): guard, then one
request, then a field-by-field copy of each tool descriptor. -/
def listTools (s : ClientState) (resp : List SDKTool) :
    Except MCPError (List MCPTool) × List Request :=
  if ensureConnectedFails s then
    (.error .notConnectedError, [])
  else
    (.ok (resp.map fun t =>
      { name := t.name, description := t.description, inputSchema := t.inputSchema }),
     [.listToolsReq])

/-- The SDK response to `callTool` (the fields the source reads:
`response.content`, `response.isError`). -/
structure SDKToolResponse where
  content : List ContentBlock
  isError : Option Bool := none
  deriving Repr, DecidableEq

/-- The method `callTool(name, args)` (client.ts lines 126-142): guard, one
request, then the response's `content` and `isError` are passed through as
data. -/
def callTool (s : ClientState) (name : String) (args : List (String × JsonVal))
    (resp : SDKToolResponse) : Except MCPError ToolCallResult × List Request :=
  if ensureConnectedFails s then
    (.error .notConnectedError, [])
  else
    (.ok { content := resp.content, isError := resp.isError },
     [.callToolReq name args])

/-- A resource as delivered by the SDK response to `listResources` (the fields
the source reads). -/
structure SDKResource where
  uri : String
  name : String
  description : Option String := none
  mimeType : Option String := none
  deriving Repr, DecidableEq

/-- The method `listResources()` (client.ts lines 147-157). -/
def listResources (s : ClientState) (resp : List SDKResource) :
    Except MCPError (List MCPResource) × List Request :=
  if ensureConnectedFails s then
    (.error .notConnectedError, [])
  else
    (.ok (resp.map fun r =>
      { uri := r.uri, name := r.name, description := r.description,
        mimeType := r.mimeType }),
     [.listResourcesReq])

/-- One element of `response.contents` in `readResource`: `text` is `some`
exactly when the source test `'text' in content` holds. -/
structure ResourceContent where
  uri : String := ""
  text : Option String := none
  blob : Option String := none
  deriving Repr, DecidableEq

/-- The method `readResource(uri)` (client.ts lines 162-173): guard, one
request, then inspect `contents[0]`; return its `text` when present,
otherwise throw `Resource content not available as text`. -/
def readResource (s : ClientState) (uri : String) (resp : List ResourceContent) :
    Except MCPError String × List Request :=
  if ensureConnectedFails s then
    (.error .notConnectedError, [])
  else
    match resp.head? with
    | some c =>
        match c.text with
        | some t => (.ok t, [.readResourceReq uri])
        | none => (.error .unsupportedContentError, [.readResourceReq uri])
    | none => (.error .unsupportedContentError, [.readResourceReq uri])

/-- A prompt as delivered by the SDK response to `listPrompts` (the fields the
source reads). -/
structure SDKPrompt where
  name : String
  description : Option String := none
  arguments : Option (List PromptArgument) := none
  deriving Repr, DecidableEq

/-- The method `listPrompts()` (client.ts lines 178-187). -/
def listPrompts (s : ClientState) (resp : List SDKPrompt) :
    Except MCPError (List MCPPrompt) × List Request :=
  if ensureConnectedFails s then
    (.error .notConnectedError, [])
  else
    (.ok (resp.map fun p =>
      { name := p.name, description := p.description, arguments := p.arguments }),
     [.listPromptsReq])

/-- One block of a structured prompt-message content; `text` is `some` exactly
when the source test `'text' in c` holds. -/
structure PromptBlock where
  type : String := ""
  text : Option String := none
  deriving Repr, DecidableEq

/-- The content of one message in a `getPrompt` response: either a plain
string or a list of blocks (`typeof msg.content === 'string'` dispatch). -/
inductive PromptMsgContent where
  | str (s : String)
  | blocks (l : List PromptBlock)
  deriving Repr, DecidableEq

/-- One message of the SDK response to `getPrompt`. -/
structure SDKPromptMessage where
  role : String
  content : PromptMsgContent
  deriving Repr, DecidableEq

/-- The SDK response to `getPrompt` (the fields the source reads). -/
structure SDKPromptResponse where
  description : Option String := none
  messages : List SDKPromptMessage
  deriving Repr, DecidableEq

/-- One message of the value `getPrompt` returns: content already flattened to
a string. -/
structure PromptMessage where
  role : String
  content : String
  deriving Repr, DecidableEq

/-- The value `getPrompt` returns. -/
structure PromptResult where
  description : Option String := none
  messages : List PromptMessage
  deriving Repr, DecidableEq

/-- The method `getPrompt(name, args)` (client.ts lines 192-213): guard, one
request, then each message's content is passed through when it is a string
and otherwise flattened with `map(c => 'text' in c ? c.text : '').join('')`. -/
def getPrompt (s : ClientState) (name : String) (args : List (String × String))
    (resp : SDKPromptResponse) : Except MCPError PromptResult × List Request :=
  if ensureConnectedFails s then
    (.error .notConnectedError, [])
  else
    (.ok
      { description := resp.description,
        messages := resp.messages.map fun m =>
          { role := m.role,
            content :=
              match m.content with
              | .str t => t
              | .blocks l => String.join (l.map fun c => c.text.getD "") } },
     [.getPromptReq name args])

/-- The method `isConnected()` (client.ts lines 218-220). -/
def isConnected (s : ClientState) : Bool :=
  s.connected

/-- The method `getTransportType()` (client.ts lines 225-227). -/
def getTransportType (s : ClientState) : TransportType :=
  s.transportType

/-- A sample disconnected client state over a stdio config, used by witnesses. -/
def stdioDisconnected : ClientState :=
  { config := { command := some "node", args := some ["./server.js"] },
    connected := false, transportType := .stdio }

/-- A sample connected client state over a stdio config, used by witnesses. -/
def stdioConnected : ClientState :=
  { config := { command := some "node", args := some ["./server.js"] },
    connected := true, transportType := .stdio }

/-- C1: every typed operation (listTools, callTool, listResources,
readResource, listPrompts, getPrompt) invoked while the client is not
connected fails with NotConnectedError and performs no wire request. -/
theorem claim1_ops_fail_when_disconnected (s : ClientState)
    (h : isConnected s = false)
    (toolsResp : List SDKTool) (n : String) (cargs : List (String × JsonVal))
    (ctResp : SDKToolResponse) (resResp : List SDKResource) (uri : String)
    (rcResp : List ResourceContent) (prResp : List SDKPrompt)
    (pn : String) (pargs : List (String × String)) (gpResp : SDKPromptResponse) :
    listTools s toolsResp = (.error .notConnectedError, [])
    ∧ callTool s n cargs ctResp = (.error .notConnectedError, [])
    ∧ listResources s resResp = (.error .notConnectedError, [])
    ∧ readResource s uri rcResp = (.error .notConnectedError, [])
    ∧ listPrompts s prResp = (.error .notConnectedError, [])
    ∧ getPrompt s pn pargs gpResp = (.error .notConnectedError, []) := by
  have hc : s.connected = false := h
  simp [listTools, callTool, listResources, readResource, listPrompts, getPrompt,
    ensureConnectedFails, hc]

/-- Witness for C1 at a concrete disconnected state. -/
theorem claim1_witness :
    isConnected stdioDisconnected = false ∧
    (listTools stdioDisconnected [] = (.error .notConnectedError, [])
     ∧ callTool stdioDisconnected "echo" [] { content := [] } =
         (.error .notConnectedError, [])
     ∧ listResources stdioDisconnected [] = (.error .notConnectedError, [])
     ∧ readResource stdioDisconnected "file://a" [] = (.error .notConnectedError, [])
     ∧ listPrompts stdioDisconnected [] = (.error .notConnectedError, [])
     ∧ getPrompt stdioDisconnected "p" [] { messages := [] } =
         (.error .notConnectedError, [])) :=
  ⟨rfl, claim1_ops_fail_when_disconnected stdioDisconnected rfl [] "echo" []
    { content := [] } [] "file://a" [] [] "p" [] { messages := [] }⟩

/-- C2: the constructor resolves exactly one transport kind: a truthy `sseUrl`
yields the sse transport (taking precedence when `command` is also set), an
otherwise truthy `command` yields stdio, and neither yields a
ConfigurationError. -/
theorem claim2_transport_resolution (cfg : MCPClientConfig) :
    (truthy cfg.sseUrl = true →
      mkClient cfg =
        .ok { config := withDefaults cfg, connected := false, transportType := .sse })
    ∧ (truthy cfg.sseUrl = false → truthy cfg.command = true →
      mkClient cfg =
        .ok { config := withDefaults cfg, connected := false, transportType := .stdio })
    ∧ (truthy cfg.sseUrl = false → truthy cfg.command = false →
      mkClient cfg = .error .configurationError) := by
  refine ⟨fun h => ?_, fun h1 h2 => ?_, fun h1 h2 => ?_⟩
  · simp [mkClient, h]
  · simp [mkClient, h1, h2]
  · simp [mkClient, h1, h2]

/-- Witness for C2: with both `sseUrl` and `command` set, sse wins. -/
theorem claim2_witness :
    truthy (some "http://localhost:3000/mcp") = true ∧
    mkClient { command := some "node", sseUrl := some "http://localhost:3000/mcp" } =
      .ok { config := withDefaults
              { command := some "node", sseUrl := some "http://localhost:3000/mcp" },
            connected := false, transportType := .sse } :=
  ⟨by decide,
   (claim2_transport_resolution
      { command := some "node", sseUrl := some "http://localhost:3000/mcp" }).1
    (by decide)⟩

/-- C3: disconnect is idempotent: from any client state, once a first
disconnect has completed without error, a second disconnect produces no
error, changes nothing, and the client is disconnected, whatever the
underlying close does on that second call. -/
theorem claim3_disconnect_idempotent (s : ClientState) (o₁ o₂ : CloseOutcome)
    (h : (disconnect s o₁).1 = .ok ()) :
    disconnect (disconnect s o₁).2 o₂ = (.ok (), (disconnect s o₁).2)
    ∧ isConnected (disconnect (disconnect s o₁).2 o₂).2 = false := by
  cases hc : s.connected with
  | false => simp [disconnect, isConnected, hc]
  | true =>
    cases o₁ with
    | success => simp [disconnect, isConnected, hc]
    | failure msg => simp [disconnect, hc] at h

/-- Witness for C3 at a concrete connected state with a successful close. -/
theorem claim3_witness :
    (disconnect stdioConnected .success).1 = .ok () ∧
    (disconnect (disconnect stdioConnected .success).2 (.failure "boom") =
      (.ok (), (disconnect stdioConnected .success).2)
     ∧ isConnected
        (disconnect (disconnect stdioConnected .success).2 (.failure "boom")).2 =
        false) :=
  ⟨rfl, claim3_disconnect_idempotent stdioConnected .success (.failure "boom") rfl⟩

/-- C4: connect while already connected fails with AlreadyConnectedError and
leaves the whole client state, in particular the connected flag and the
transport type, unchanged. -/
theorem claim4_connect_when_connected (s : ClientState) (o : ConnectOutcome)
    (h : isConnected s = true) :
    connect s o = (.error .alreadyConnectedError, s)
    ∧ isConnected (connect s o).2 = true
    ∧ getTransportType (connect s o).2 = getTransportType s := by
  have hc : s.connected = true := h
  simp [connect, isConnected, getTransportType, hc]

/-- Witness for C4 at a concrete connected state. -/
theorem claim4_witness :
    isConnected stdioConnected = true ∧
    (connect stdioConnected (.success { tools := true, resources := false, prompts := false }) =
      (.error .alreadyConnectedError, stdioConnected)
     ∧ isConnected (connect stdioConnected
        (.success { tools := true, resources := false, prompts := false })).2 = true
     ∧ getTransportType (connect stdioConnected
        (.success { tools := true, resources := false, prompts := false })).2 =
        getTransportType stdioConnected) :=
  ⟨rfl, claim4_connect_when_connected stdioConnected
    (.success { tools := true, resources := false, prompts := false }) rfl⟩

/-- C5: on a connected client, callTool returns the server's content blocks
and isError flag verbatim as data, for every server response; in particular
a tool-level failure (isError true) yields an ok result, not an error. -/
theorem claim5_calltool_passthrough (s : ClientState) (n : String)
    (cargs : List (String × JsonVal)) (resp : SDKToolResponse)
    (h : isConnected s = true) :
    (callTool s n cargs resp).1 =
      .ok { content := resp.content, isError := resp.isError } := by
  have hc : s.connected = true := h
  simp [callTool, ensureConnectedFails, hc]

/-- Witness for C5: the rag_query scenario, with the JSON text payload
returned as-is inside one text block and isError false. -/
theorem claim5_witness :
    isConnected stdioConnected = true ∧
    (callTool stdioConnected "rag_query" [("query", .str "x"), ("topK", .num 5)]
      { content := [{ type := "text", text := some "\x7b\"answer\":\"y\"\x7d" }],
        isError := some false }).1 =
      .ok { content := [{ type := "text", text := some "\x7b\"answer\":\"y\"\x7d" }],
            isError := some false } :=
  ⟨rfl, claim5_calltool_passthrough stdioConnected "rag_query"
    [("query", .str "x"), ("topK", .num 5)]
    { content := [{ type := "text", text := some "\x7b\"answer\":\"y\"\x7d" }],
      isError := some false } rfl⟩

/-- C6: on a connected client, listTools returns one descriptor per tool sent
by the server, preserving name, description and the inputSchema fields
(type, properties, required) verbatim. -/
theorem claim6_listtools_roundtrip (s : ClientState) (resp : List SDKTool)
    (h : isConnected s = true) :
    ∃ l, (listTools s resp).1 = .ok l ∧
      List.Forall₂ (fun t m =>
        m.name = t.name ∧ m.description = t.description
        ∧ m.inputSchema.type = t.inputSchema.type
        ∧ m.inputSchema.properties = t.inputSchema.properties
        ∧ m.inputSchema.required = t.inputSchema.required) resp l := by
  have hc : s.connected = true := h
  refine ⟨resp.map fun t =>
    { name := t.name, description := t.description, inputSchema := t.inputSchema },
    by simp [listTools, ensureConnectedFails, hc], ?_⟩
  induction resp with
  | nil => exact List.Forall₂.nil
  | cons t ts ih => exact List.Forall₂.cons ⟨rfl, rfl, rfl, rfl, rfl⟩ ih

/-- The echo tool descriptor of the spec scenario, used by the C6 witness. -/
def echoTool : SDKTool :=
  { name := "echo", description := some "Echo a message",
    inputSchema :=
      { type := "object",
        properties := some [("message", .obj [("type", .str "string")])],
        required := some ["message"] } }

/-- Witness for C6: the echo tool descriptor of the spec scenario round-trips. -/
theorem claim6_witness :
    isConnected stdioConnected = true ∧
    ∃ l, (listTools stdioConnected [echoTool]).1 = .ok l ∧
      List.Forall₂ (fun t m =>
        m.name = t.name ∧ m.description = t.description
        ∧ m.inputSchema.type = t.inputSchema.type
        ∧ m.inputSchema.properties = t.inputSchema.properties
        ∧ m.inputSchema.required = t.inputSchema.required) [echoTool] l :=
  ⟨rfl, claim6_listtools_roundtrip stdioConnected [echoTool] rfl⟩

/-- C7: on a connected client, readResource returns exactly the text of the
returned content (its first content element) when that content carries a
textual representation, and fails with UnsupportedContentError when it does
not (no such element, or no text field). -/
theorem claim7_readresource_text (s : ClientState) (uri : String)
    (resp : List ResourceContent) (h : isConnected s = true) :
    (∀ t, (resp.head?.bind fun c => c.text) = some t →
      (readResource s uri resp).1 = .ok t)
    ∧ ((resp.head?.bind fun c => c.text) = none →
      (readResource s uri resp).1 = .error .unsupportedContentError) := by
  have hc : s.connected = true := h
  constructor
  · intro t ht
    cases hr : resp.head? with
    | none => simp [hr] at ht
    | some c =>
      cases hct : c.text with
      | none => simp [hr, hct] at ht
      | some t' =>
        have ht' : t' = t := by simpa [hr, hct] using ht
        subst ht'
        simp [readResource, ensureConnectedFails, hc, hr, hct]
  · intro ht
    cases hr : resp.head? with
    | none => simp [readResource, ensureConnectedFails, hc, hr]
    | some c =>
      cases hct : c.text with
      | some t' => simp [hr, hct] at ht
      | none => simp [readResource, ensureConnectedFails, hc, hr, hct]

/-- Witness for C7: a textual first content yields its text. -/
theorem claim7_witness :
    isConnected stdioConnected = true ∧
    (readResource stdioConnected "file://a"
      [{ uri := "file://a", text := some "hello" }]).1 = .ok "hello" :=
  ⟨rfl, (claim7_readresource_text stdioConnected "file://a"
    [{ uri := "file://a", text := some "hello" }] rfl).1 "hello" rfl⟩

/-- C8: when connect fails on a disconnected client, the client is left
disconnected and the failure surfaces as a ConnectionError wrapping the
underlying message. -/
theorem claim8_connect_failure (s : ClientState) (msg : String)
    (h : isConnected s = false) :
    (connect s (.failure msg)).1 =
      .error (.connectionError ("Failed to connect: " ++ msg))
    ∧ isConnected (connect s (.failure msg)).2 = false := by
  have hc : s.connected = false := h
  simp [connect, isConnected, hc]

/-- Witness for C8 at a concrete disconnected state. -/
theorem claim8_witness :
    isConnected stdioDisconnected = false ∧
    ((connect stdioDisconnected (.failure "spawn ENOENT")).1 =
      .error (.connectionError ("Failed to connect: " ++ "spawn ENOENT"))
     ∧ isConnected (connect stdioDisconnected (.failure "spawn ENOENT")).2 = false) :=
  ⟨rfl, claim8_connect_failure stdioDisconnected "spawn ENOENT" rfl⟩

/-- C9: when the underlying close fails during disconnect on a connected
client, the error is surfaced and the state is unchanged: the client still
reports connected, the flag being cleared only after a successful close. -/
theorem claim9_close_failure_keeps_connected (s : ClientState) (msg : String)
    (h : isConnected s = true) :
    (disconnect s (.failure msg)).1 =
      .error (.disconnectError ("Failed to disconnect: " ++ msg))
    ∧ (disconnect s (.failure msg)).2 = s
    ∧ isConnected (disconnect s (.failure msg)).2 = true := by
  have hc : s.connected = true := h
  simp [disconnect, isConnected, hc]

/-- Witness for C9 at a concrete connected state. -/
theorem claim9_witness :
    isConnected stdioConnected = true ∧
    ((disconnect stdioConnected (.failure "EPIPE")).1 =
      .error (.disconnectError ("Failed to disconnect: " ++ "EPIPE"))
     ∧ (disconnect stdioConnected (.failure "EPIPE")).2 = stdioConnected
     ∧ isConnected (disconnect stdioConnected (.failure "EPIPE")).2 = true) :=
  ⟨rfl, claim9_close_failure_keeps_connected stdioConnected "EPIPE" rfl⟩

/-- C10: on a connected client, getPrompt returns each message with its role
kept and its content reduced to a single string: string content passes
through unchanged, and structured content becomes the concatenation, in
order, of the text of its text blocks, non-text blocks contributing "". -/
theorem claim10_getprompt_flatten (s : ClientState) (n : String)
    (pargs : List (String × String)) (resp : SDKPromptResponse)
    (h : isConnected s = true) :
    ∃ pr, (getPrompt s n pargs resp).1 = .ok pr ∧
      pr.description = resp.description ∧
      List.Forall₂ (fun m out =>
        out.role = m.role
        ∧ (∀ t, m.content = .str t → out.content = t)
        ∧ (∀ bs, m.content = .blocks bs →
            out.content = String.join (bs.map fun c => c.text.getD "")))
        resp.messages pr.messages := by
  have hc : s.connected = true := h
  refine ⟨{ description := resp.description,
            messages := resp.messages.map fun m =>
              { role := m.role,
                content :=
                  match m.content with
                  | .str t => t
                  | .blocks l => String.join (l.map fun c => c.text.getD "") } },
    by simp [getPrompt, ensureConnectedFails, hc], rfl, ?_⟩
  induction resp.messages with
  | nil => exact List.Forall₂.nil
  | cons m ms ih =>
    refine List.Forall₂.cons ⟨rfl, ?_, ?_⟩ ih
    · intro t ht
      simp [ht]
    · intro bs hbs
      simp [hbs]

/-- A concrete getPrompt response with one string message and one structured
message holding a non-text block, used by the C10 witness. -/
def greetResponse : SDKPromptResponse :=
  { description := some "greeting",
    messages :=
      [{ role := "user", content := .str "hi" },
       { role := "assistant",
         content := .blocks
           [{ type := "text", text := some "he" },
            { type := "image" },
            { type := "text", text := some "llo" }] }] }

/-- Witness for C10: a string message passes through and a structured message
is flattened with a non-text block contributing "". -/
theorem claim10_witness :
    isConnected stdioConnected = true ∧
    ∃ pr, (getPrompt stdioConnected "greet" [("name", "dan")] greetResponse).1 =
        .ok pr ∧
      pr.description = greetResponse.description ∧
      List.Forall₂ (fun m out =>
        out.role = m.role
        ∧ (∀ t, m.content = .str t → out.content = t)
        ∧ (∀ bs, m.content = .blocks bs →
            out.content = String.join (bs.map fun c => c.text.getD "")))
        greetResponse.messages pr.messages :=
  ⟨rfl, claim10_getprompt_flatten stdioConnected "greet" [("name", "dan")]
    greetResponse rfl⟩

end MCP
